import Mathlib

/-!
Verification development for the trade-onboarding workflow service.

The Python source (a FastAPI server `server/app.py`, step handlers in
`agent/graph.py`, and pure helpers in `agent/tools.py`) is shallowly
embedded below.  Conventions used throughout:

* Python strings are modelled as Lean `String` / `List Char`; character
  classification (`isdigit`, `\w`, `lower`) follows ASCII semantics.
* Python dict-shaped session state is modelled by the structure `State`;
  a handler's returned dict ("patch") is modelled by `Patch`, a record of
  `Option` fields (`none` = key absent from the returned dict), merged by
  `mergeRaw` / `mergeClear` exactly as `_raw_merge` / `_merge` do.
* External collaborators (the LLM content generator, registries, the
  vision classifier, HTTP fetches) are parameters of the embedded
  functions: the orchestrator and the deterministic decision engines are
  embedded from the source, while collaborator outcomes are inputs.
* Chat messages are abstracted to tags (`MsgTag`): no claim inspects
  message text, only which message was produced and how lists append.
* Python `set` objects used only through membership are modelled as
  lists with `List.contains`.
-/

namespace TradeOnboarding

/-! ## Python string primitives -/

/-- ASCII whitespace as recognised by Python `str.strip`. -/
def isPySpace (c : Char) : Bool :=
  c = ' ' || c = '\t' || c = '\n' || c = '\r' || c = '\x0b' || c = '\x0c'

/-- Python `str.strip()` on a character list. -/
def pyStrip (l : List Char) : List Char :=
  ((l.dropWhile isPySpace).reverse.dropWhile isPySpace).reverse

/-- Python `.replace(" ", "")`: removes space characters only. -/
def removeSpaces (l : List Char) : List Char :=
  l.filter (fun c => c ≠ ' ')

/-- Python `str.isdigit()` (ASCII digits; empty string is `False`). -/
def pyIsDigit (l : List Char) : Bool :=
  !l.isEmpty && l.all Char.isDigit

/-- Regex word character `\w` (ASCII). -/
def isWordChar (c : Char) : Bool :=
  c.isAlphanum || c = '_'

/-- Python `str.lower()` (ASCII). -/
def pyLower (s : String) : String :=
  String.mk (s.data.map Char.toLower)

/-- Boolean infix test on character lists. -/
def listInfix (needle : List Char) : List Char → Bool
  | [] => needle.isPrefixOf []
  | c :: rest => needle.isPrefixOf (c :: rest) || listInfix needle rest

/-- Python substring test `needle in hay`. -/
def pyContains (hay needle : String) : Bool :=
  listInfix needle.data hay.data

/-- Python `str.capitalize()` (first character upper, rest lower). -/
def pyCapitalize (s : String) : String :=
  match s.data with
  | [] => s
  | c :: rest => String.mk (c.toUpper :: rest.map Char.toLower)

/-! ## Dynamic (JSON-borne) scalar values

LLM-produced service ids may arrive as JSON numbers or strings; `PyVal`
models the two shapes the code actually handles, and `pyToInt` models
Python `int(x)` returning `none` where Python would raise. -/

inductive PyVal where
  | vint (n : Int)
  | vstr (s : String)
deriving DecidableEq, Repr

/-- Helper for `pyToInt`: value of a nonempty all-digit character list. -/
def digitsToNat (l : List Char) : Option Nat :=
  if !l.isEmpty && l.all Char.isDigit then
    some (l.foldl (fun acc c => acc * 10 + (c.toNat - 48)) 0)
  else none

/-- Python `int(s)` on a string: optional surrounding whitespace, optional
sign, then decimal digits (underscore grouping is not modelled). -/
def pyParseInt (s : String) : Option Int :=
  match pyStrip s.data with
  | [] => none
  | c :: rest =>
    if c = '-' then (digitsToNat rest).map (fun n => -(n : Int))
    else if c = '+' then (digitsToNat rest).map (fun n => (n : Int))
    else (digitsToNat (c :: rest)).map (fun n => (n : Int))

/-- Python `int(x)` on a dynamic value (`agent/tools.py`,
`compute_service_gaps`: `int(sid)` with `ValueError`/`TypeError`
discarded by the caller). -/
def pyToInt (v : PyVal) : Option Int :=
  match v with
  | .vint n => some n
  | .vstr s => pyParseInt s

/-! ## Identity query resolution (C3)

Embeds the query-parsing prefix of `business_verification_node`
(`agent/graph.py` lines 109-121): ABN classification and trailing
postcode detection. -/

structure QueryResolution where
  isAbn : Bool
  searchTerm : List Char
  postcode : Option (List Char)
deriving DecidableEq, Repr

/-- Match of the regex `\b(\d{4})\s*$` against an already-stripped
string: returns the match start index and the four digits.  Because the
subject is stripped, `\s*$` matches the empty suffix, so the pattern
matches exactly when the last four characters are digits and are
preceded by a word boundary. -/
def findTrailingPostcode (st : List Char) : Option (Nat × List Char) :=
  let n := st.length
  if 4 ≤ n then
    let last4 := st.drop (n - 4)
    if last4.all Char.isDigit then
      if n = 4 then some (0, last4)
      else
        match (st.drop (n - 5)).head? with
        | some c => if isWordChar c then none else some (n - 4, last4)
        | none => none
    else none
  else none

/-- Embeds `agent/graph.py` lines 110-121: `clean` removes spaces from
the stripped message, an ABN is exactly 11 digits, and a trailing
four-digit token is detected on the stripped message while the search
term slices the original message at the match index. -/
def resolveQuery (msg : List Char) : QueryResolution :=
  let clean := removeSpaces (pyStrip msg)
  let isAbn := pyIsDigit clean && clean.length = 11
  match findTrailingPostcode (pyStrip msg) with
  | some (i, code) =>
    if isAbn then
      { isAbn := isAbn, searchTerm := msg, postcode := none }
    else
      { isAbn := isAbn, searchTerm := pyStrip (msg.take i), postcode := some code }
  | none => { isAbn := isAbn, searchTerm := msg, postcode := none }

/-- Spec-side classifier, following the specification wording: numeric
identifier iff, after removing spaces, the string is all digits and at
least 9 characters. -/
def specNumericIdentifier (msg : List Char) : Bool :=
  let clean := removeSpaces (pyStrip msg)
  pyIsDigit clean && 9 ≤ clean.length

/-! ## Session data model

Field-for-field embedding of the session dict created in
`server/app.py` `create_session`, restricted to the keys the
orchestrator and the claims touch.  Transcript-only string fields
(`services_raw`, `location_raw`, `business_name_input`, `abn_input`)
and the raw ABR result cache are omitted: no orchestration decision
reads them. -/

/-- Mapped service as produced by the service-discovery LLM
(`input, category_name, category_id, subcategory_name,
subcategory_id, confidence`); ids may be absent, numeric or strings. -/
structure Service where
  input : String
  category_name : String
  category_id : Option PyVal
  subcategory_name : String
  subcategory_id : Option PyVal
deriving DecidableEq, Repr

/-- Licence detail fields used by `complete_node`. -/
structure Licence where
  licence_number : String
  licence_type : String
  status : String
  expiry_date : String
deriving DecidableEq, Repr

/-- Coverage-area dict (`service_areas`); every key may be absent. -/
structure Areas where
  base_suburb : Option String
  base_postcode : Option String
  base_lat : Option Int
  base_lng : Option Int
  radius_km : Option Int
  regions_included : Option (List String)
  regions_excluded : Option (List String)
  barriers : Option (List String)
  travel_notes : Option String
deriving DecidableEq, Repr

/-- Empty `service_areas` dict. -/
def Areas.empty : Areas :=
  { base_suburb := none, base_postcode := none, base_lat := none
    base_lng := none, radius_km := none, regions_included := none
    regions_excluded := none, barriers := none, travel_notes := none }

/-- Python truthiness of `service_areas.get("regions_included")`. -/
def Areas.regionsIncludedTruthy (a : Areas) : Bool :=
  match a.regions_included with
  | some l => !l.isEmpty
  | none => false

/-- Python truthiness of `service_areas.get("base_suburb")`. -/
def Areas.baseSuburbTruthy (a : Areas) : Bool :=
  match a.base_suburb with
  | some s => s ≠ ""
  | none => false

/-- Quick-reply button. -/
structure Button where
  label : String
  value : String
deriving DecidableEq, Repr

/-- Chat messages abstracted to tags: which AI message a node appended.
Message text is never branched on by the orchestrator. -/
inductive MsgTag where
  | servicesLockedIn
  | safetyCapDone
  | svcAnswer
  | svcErrorPrompt
  | areasAlreadyConfirmed
  | pricingIntro
  | pricingWhichPay
  | pricingWhichPlan
  | pricingLockedIn
  | pricingSkip
  | pricingGreatChoice
  | completeDone
deriving DecidableEq, Repr

/-- Pipeline steps (`NODE_FUNCTIONS` keys in `server/app.py`). -/
inductive NodeName where
  | welcome
  | business_verification
  | service_discovery
  | service_area
  | confirmation
  | profile
  | pricing
  | complete
deriving DecidableEq, Repr

/-! ## Final structured output (`complete_node`) -/

/-- Subcategory entry of a grouped service. -/
structure SubOut where
  name : String
  id : PyVal
deriving DecidableEq, Repr

/-- One category group in the final output. -/
structure ServiceGroup where
  category : String
  category_id : PyVal
  subcategories : List SubOut
deriving DecidableEq, Repr

/-- Licence summary in the final output. -/
structure LicenceOut where
  number : String
  licenceType : String
  status : String
  expiry : String
  classes : List String
deriving DecidableEq, Repr

/-- Coverage descriptor in the final output. -/
structure AreasOut where
  suburb : String
  postcode : String
  lat : Int
  lng : Int
  radius_km : Int
  regions_included : List String
  regions_excluded : List String
  barriers : List String
  travel_notes : String
deriving DecidableEq, Repr

/-- Profile block in the final output. -/
structure ProfileOut where
  description : String
  years_in_business : Int
  logo : String
  photos : List String
deriving DecidableEq, Repr

/-- Subscription block in the final output. -/
structure SubscriptionOut where
  plan : String
  billing : String
  price : String
deriving DecidableEq, Repr

/-- Finalized structured record built by `complete_node`. -/
structure Output where
  business_name : String
  abn : String
  entity_type : String
  gst_registered : Bool
  licence : Option LicenceOut
  services : List ServiceGroup
  service_areas : AreasOut
  contact_name : String
  contact_phone : String
  profile : ProfileOut
  subscription : Option SubscriptionOut
deriving DecidableEq, Repr

/-- Session state (the dict stored in `sessions`). -/
structure State where
  current_node : NodeName
  business_name : String
  abn : String
  entity_type : String
  gst_registered : Bool
  business_verified : Bool
  business_postcode : String
  licence_info : Option Licence
  licence_classes : List String
  services : List Service
  services_confirmed : Bool
  service_areas : Areas
  service_areas_confirmed : Bool
  confirmed : Bool
  output_json : Option Output
  contact_name : String
  contact_phone : String
  years_in_business : Int
  profile_description : String
  profile_description_draft : String
  profile_logo : String
  profile_photos : List String
  profile_saved : Bool
  pricing_shown : Bool
  subscription_plan : String
  subscription_billing : String
  subscription_price : String
  selected_plan : String
  svcTurn : Option Nat
  buttons : Option (List Button)
  msgs : List MsgTag
deriving DecidableEq, Repr

/-- Fresh session state, as initialised by `create_session`
(`server/app.py` lines 210-243): every flag false, collections empty.
The transient key `_svc_turn` and the button list start absent,
matching the dict having no such keys. -/
def State.fresh : State :=
  { current_node := .welcome, business_name := "", abn := ""
    entity_type := "", gst_registered := false, business_verified := false
    business_postcode := "", licence_info := none, licence_classes := []
    services := [], services_confirmed := false
    service_areas := Areas.empty, service_areas_confirmed := false
    confirmed := false, output_json := none
    contact_name := "", contact_phone := "", years_in_business := 0
    profile_description := "", profile_description_draft := ""
    profile_logo := "", profile_photos := [], profile_saved := false
    pricing_shown := false, subscription_plan := ""
    subscription_billing := "", subscription_price := ""
    selected_plan := "", svcTurn := none, buttons := none, msgs := [] }

/-- Handler result dict: each `Option` field is `some v` when the
returned dict contains that key.  `msgs` is the `messages` key, merged
by appending. -/
structure Patch where
  current_node : Option NodeName
  business_name : Option String
  abn : Option String
  entity_type : Option String
  gst_registered : Option Bool
  business_verified : Option Bool
  business_postcode : Option String
  licence_info : Option (Option Licence)
  licence_classes : Option (List String)
  services : Option (List Service)
  services_confirmed : Option Bool
  service_areas : Option Areas
  service_areas_confirmed : Option Bool
  confirmed : Option Bool
  output_json : Option Output
  contact_name : Option String
  contact_phone : Option String
  years_in_business : Option Int
  profile_description : Option String
  profile_description_draft : Option String
  profile_logo : Option String
  profile_photos : Option (List String)
  profile_saved : Option Bool
  pricing_shown : Option Bool
  subscription_plan : Option String
  subscription_billing : Option String
  subscription_price : Option String
  selected_plan : Option String
  svcTurn : Option Nat
  buttons : Option (List Button)
  msgs : List MsgTag
deriving DecidableEq, Repr

/-- Patch with no keys. -/
def Patch.empty : Patch :=
  { current_node := none, business_name := none, abn := none
    entity_type := none, gst_registered := none, business_verified := none
    business_postcode := none, licence_info := none, licence_classes := none
    services := none, services_confirmed := none, service_areas := none
    service_areas_confirmed := none, confirmed := none, output_json := none
    contact_name := none, contact_phone := none, years_in_business := none
    profile_description := none, profile_description_draft := none
    profile_logo := none, profile_photos := none, profile_saved := none
    pricing_shown := none, subscription_plan := none
    subscription_billing := none, subscription_price := none
    selected_plan := none, svcTurn := none, buttons := none, msgs := [] }

/-- Embeds `_raw_merge` in `run_node` (`server/app.py` lines 128-134):
every key of the result overwrites the state, except `messages` which
appends; buttons are not cleared. -/
def mergeRaw (s : State) (p : Patch) : State :=
  { current_node := p.current_node.getD s.current_node
    business_name := p.business_name.getD s.business_name
    abn := p.abn.getD s.abn
    entity_type := p.entity_type.getD s.entity_type
    gst_registered := p.gst_registered.getD s.gst_registered
    business_verified := p.business_verified.getD s.business_verified
    business_postcode := p.business_postcode.getD s.business_postcode
    licence_info := p.licence_info.getD s.licence_info
    licence_classes := p.licence_classes.getD s.licence_classes
    services := p.services.getD s.services
    services_confirmed := p.services_confirmed.getD s.services_confirmed
    service_areas := p.service_areas.getD s.service_areas
    service_areas_confirmed := p.service_areas_confirmed.getD s.service_areas_confirmed
    confirmed := p.confirmed.getD s.confirmed
    output_json := match p.output_json with
      | some o => some o
      | none => s.output_json
    contact_name := p.contact_name.getD s.contact_name
    contact_phone := p.contact_phone.getD s.contact_phone
    years_in_business := p.years_in_business.getD s.years_in_business
    profile_description := p.profile_description.getD s.profile_description
    profile_description_draft := p.profile_description_draft.getD s.profile_description_draft
    profile_logo := p.profile_logo.getD s.profile_logo
    profile_photos := p.profile_photos.getD s.profile_photos
    profile_saved := p.profile_saved.getD s.profile_saved
    pricing_shown := p.pricing_shown.getD s.pricing_shown
    subscription_plan := p.subscription_plan.getD s.subscription_plan
    subscription_billing := p.subscription_billing.getD s.subscription_billing
    subscription_price := p.subscription_price.getD s.subscription_price
    selected_plan := p.selected_plan.getD s.selected_plan
    svcTurn := match p.svcTurn with
      | some n => some n
      | none => s.svcTurn
    buttons := match p.buttons with
      | some b => some b
      | none => s.buttons
    msgs := s.msgs ++ p.msgs }

/-- Embeds `_merge` in `run_node` (`server/app.py` lines 119-126):
first pops any stale `buttons` key, then merges like `_raw_merge`. -/
def mergeClear (s : State) (p : Patch) : State :=
  mergeRaw { s with buttons := none } p

/-- Embeds `determine_node` (`server/app.py` lines 96-108). -/
def determineNode (s : State) : NodeName :=
  if !s.business_verified then .business_verification
  else if !s.services_confirmed then .service_discovery
  else if !s.service_areas_confirmed then .service_area
  else if !s.profile_saved then .profile
  else if s.subscription_plan = "" then .pricing
  else .complete

/-! ## Orchestrator (`run_node`, `server/app.py` lines 111-186)

Step handlers are parameters of type `NodeName → State → Except Unit
Patch`: `Except.error ()` models the handler raising, which `asyncio`
propagates out of every `await` (and out of `asyncio.gather`). -/

/-- Shorthand for the handler-map parameter of the orchestrator. -/
abbrev Nodes := NodeName → State → Except Unit Patch

/-- Embeds the auto-chain tail `area confirmed → profile → pricing →
complete`; the source repeats these three guarded merges verbatim in
the parallel path (lines 151-157) and the sequential path (lines
173-184), so they are factored here once. -/
def chainTail (nodes : Nodes) (s : State) : Except Unit State := do
  let s ←
    if s.service_areas_confirmed && !s.profile_saved
        && s.profile_description_draft = "" then do
      let s := { s with confirmed := true }
      let p ← nodes .profile s
      pure (mergeClear s p)
    else pure s
  let s ←
    if s.profile_saved && s.subscription_plan = "" then do
      let p ← nodes .pricing s
      pure (mergeClear s p)
    else pure s
  if s.subscription_plan ≠ "" && s.output_json.isNone then do
    let p ← nodes .complete s
    pure (mergeClear s p)
  else pure s

/-- Embeds `run_node`: picks the step via `determine_node`, fires the
service-discovery and service-area handlers concurrently on the same
state when the parallel-path condition holds (lines 139-158), otherwise
runs the selected handler and auto-chains. -/
def runNode (nodes : Nodes) (s : State) : Except Unit State := do
  let nodeName := determineNode s
  if nodeName = NodeName.service_discovery && !s.services.isEmpty
      && !s.service_areas.regionsIncludedTruthy
      && !s.service_areas_confirmed then do
    let svcResult ← nodes .service_discovery s
    let areaResult ← nodes .service_area s
    let s1 := mergeRaw s svcResult
    if s1.services_confirmed then
      chainTail nodes (mergeClear s1 areaResult)
    else
      pure s1
  else do
    let result ← nodes nodeName s
    let s1 := mergeRaw s result
    let s2 ←
      if s1.business_verified && s1.services.isEmpty
          && !s1.services_confirmed then do
        let p ← nodes .service_discovery s1
        pure (mergeClear s1 p)
      else pure s1
    let s3 ←
      if s2.services_confirmed && !s2.service_areas.baseSuburbTruthy
          && !s2.service_areas_confirmed then do
        let p ← nodes .service_area s2
        pure (mergeClear s2 p)
      else pure s2
    chainTail nodes s3

/-! ## Service-discovery step handler (`service_discovery_node`,
`agent/graph.py` lines 217-404)

The LLM call is the only non-deterministic ingredient; its outcome is
the parameter `SvcLLM`.  `plain` models the model returning
non-JSON text (wrapped, lines 363-370), `json` models a parsed JSON
object with the optional keys the handler reads, and `fail` models an
exception inside the parse block (caught at lines 397-404). -/

inductive SvcLLM where
  | plain
  | json (services : Option (List Service)) (stepComplete : Option Bool)
      (buttons : List String)
  | fail
deriving DecidableEq, Repr

/-- Python `state.get("_svc_turn", 1)`. -/
def State.svcTurnVal (s : State) : Nat :=
  s.svcTurn.getD 1

/-- Embeds `service_discovery_node`: early return when already
confirmed, the safety cap forcing completion when the turn counter
exceeds 5, and the LLM-outcome-dependent patch otherwise.  The
deterministic gap computation (lines 253-272) only shapes the prompt
and the log line, never the returned dict, so it does not appear in the
patch. -/
def svcNode (llm : SvcLLM) (s : State) : Patch :=
  let services := s.services
  if s.services_confirmed then
    { Patch.empty with
      current_node := some .service_discovery
      msgs := [.servicesLockedIn] }
  else
    let svcTurn := s.svcTurnVal
    if svcTurn > 5 then
      { Patch.empty with
        current_node := some .service_discovery
        services := some services
        services_confirmed := some true
        svcTurn := some svcTurn
        msgs := [.safetyCapDone] }
    else
      match llm with
      | .fail =>
        { Patch.empty with
          current_node := some .service_discovery
          services := some services
          svcTurn := some (svcTurn + 1)
          msgs := [.svcErrorPrompt] }
      | .plain =>
        { Patch.empty with
          current_node := some .service_discovery
          services := some services
          services_confirmed := some false
          svcTurn := some (svcTurn + 1)
          buttons := some []
          msgs := [.svcAnswer] }
      | .json svcs sc btns =>
        { Patch.empty with
          current_node := some .service_discovery
          services := some (svcs.getD services)
          services_confirmed := some (sc.getD false)
          svcTurn := some (svcTurn + 1)
          buttons := some (btns.map (fun b => { label := b, value := b }))
          msgs := [.svcAnswer] }

/-- One orchestrated invocation of the service-discovery handler:
handler patch merged into the session (merge semantics of flag and
counter keys are identical for `_merge` and `_raw_merge`). -/
def svcStep (llm : SvcLLM) (s : State) : State :=
  mergeClear s (svcNode llm s)

/-- Iterated invocations driven by a sequence of LLM outcomes. -/
def svcIter (o : Nat → SvcLLM) : Nat → State → State
  | 0, s => s
  | n + 1, s => svcStep (o n) (svcIter o n s)

/-! ## Finalization (`complete_node`, `agent/graph.py` lines 1119-1191)
and the result endpoint (`get_result`, `server/app.py` lines 355-365) -/

/-- Subcategory entry from a mapped service, with the dict-get
defaults of `complete_node`. -/
def mkSubOut (s : Service) : SubOut :=
  { name := s.subcategory_name, id := s.subcategory_id.getD (.vint 0) }

/-- One step of the `services_output` grouping loop: append the
subcategory to the existing group of the same category name, or start a
new group. -/
def addServiceToGroups (acc : List ServiceGroup) (s : Service) : List ServiceGroup :=
  if acc.any (fun g => g.category = s.category_name) then
    acc.map (fun g =>
      if g.category = s.category_name then
        { g with subcategories := g.subcategories ++ [mkSubOut s] }
      else g)
  else
    acc ++ [{ category := s.category_name
              category_id := s.category_id.getD (.vint 0)
              subcategories := [mkSubOut s] }]

/-- The `services_output` grouping of `complete_node`. -/
def groupServices (services : List Service) : List ServiceGroup :=
  services.foldl addServiceToGroups []

/-- Embeds the `output` dict literal of `complete_node`. -/
def buildOutput (s : State) : Output :=
  { business_name := s.business_name
    abn := s.abn
    entity_type := s.entity_type
    gst_registered := s.gst_registered
    licence := s.licence_info.map (fun li =>
      { number := li.licence_number, licenceType := li.licence_type
        status := li.status, expiry := li.expiry_date
        classes := s.licence_classes })
    services := groupServices s.services
    service_areas :=
      { suburb := (s.service_areas.base_suburb).getD (r"")
        postcode := (s.service_areas.base_postcode).getD s.business_postcode
        lat := (s.service_areas.base_lat).getD 0
        lng := (s.service_areas.base_lng).getD 0
        radius_km := (s.service_areas.radius_km).getD 20
        regions_included := (s.service_areas.regions_included).getD []
        regions_excluded := (s.service_areas.regions_excluded).getD []
        barriers := (s.service_areas.barriers).getD []
        travel_notes := (s.service_areas.travel_notes).getD (r"") }
    contact_name := s.contact_name
    contact_phone := s.contact_phone
    profile :=
      { description := s.profile_description
        years_in_business := s.years_in_business
        logo := s.profile_logo
        photos := s.profile_photos }
    subscription :=
      if s.subscription_plan ≠ "" && s.subscription_plan ≠ "skip" then
        some { plan := s.subscription_plan
               billing := s.subscription_billing
               price := s.subscription_price }
      else none }

/-- Embeds `complete_node`: stores the output, marks the session
confirmed and the profile saved. -/
def completeNode (s : State) : Patch :=
  { Patch.empty with
    current_node := some .complete
    output_json := some (buildOutput s)
    confirmed := some true
    profile_saved := some true
    msgs := [.completeDone] }

/-- Result of the `GET /api/session/id/result` endpoint. -/
inductive GetResult where
  | pending
  | complete (result : Option Output)
deriving DecidableEq, Repr

/-- Embeds `get_result` (`server/app.py` lines 355-365): gates on the
`confirmed` flag and returns `output_json` (initially the empty dict,
modelled `none`). -/
def getResult (s : State) : GetResult :=
  if !s.confirmed then .pending
  else .complete s.output_json

/-! ## Pricing step handler (`pricing_node`, `agent/graph.py` lines
974-1116) — fully deterministic, no LLM call. -/

/-- Row of the `PRICING_PLANS` table. -/
structure PlanInfo where
  coverage : String
  monthly : Nat
  quarterly : Nat
  annual : Nat
  monthly_equiv_q : Nat
  monthly_equiv_a : Nat
deriving DecidableEq, Repr

/-- The `PRICING_PLANS` table (`agent/graph.py` lines 964-971). -/
def pricingPlans : List (String × PlanInfo) :=
  [("standard", { coverage := "10km", monthly := 49, quarterly := 118
                  annual := 349, monthly_equiv_q := 39, monthly_equiv_a := 29 }),
   ("plus", { coverage := "20km", monthly := 79, quarterly := 190
              annual := 569, monthly_equiv_q := 63, monthly_equiv_a := 47 }),
   ("pro", { coverage := "50km", monthly := 119, quarterly := 286
             annual := 859, monthly_equiv_q := 95, monthly_equiv_a := 72 })]

/-- Dict lookup `PRICING_PLANS[p]` / `p in PRICING_PLANS`. -/
def planInfo? (p : String) : Option PlanInfo :=
  (pricingPlans.find? (fun kv => kv.1 = p)).map (fun kv => kv.2)

/-- Index of the first occurrence of `needle` in `hay`. -/
def findSub (needle : List Char) : List Char → Option Nat
  | [] => if needle.isPrefixOf ([] : List Char) then some 0 else none
  | c :: t =>
    if needle.isPrefixOf (c :: t) then some 0
    else (findSub needle t).map (fun i => i + 1)

/-- Python `s.split(needle)[1]`: the segment between the first
occurrence of `needle` and the following occurrence or the end. -/
def splitPart1 (s needle : String) : String :=
  match findSub needle.data s.data with
  | none => ""
  | some i =>
    let rest := s.data.drop (i + needle.data.length)
    match findSub needle.data rest with
    | some j => String.mk (rest.take j)
    | none => String.mk rest

/-- Billing-frequency parse of `pricing_node` turn 3 (lines 1030-1038). -/
def parseBilling (lastMsg : Option String) : String :=
  match lastMsg with
  | none => ""
  | some m =>
    if pyContains m ("__BILLING__:") then
      pyLower (String.mk (pyStrip (splitPart1 m ("__BILLING__:")).data))
    else
      let lower := pyLower m
      (([("annual"), ("quarterly"), ("monthly")].find?
          (fun b => pyContains lower b)).getD (r""))

/-- Plan-selection parse of `pricing_node` turn 2 (lines 1071-1082). -/
def parsePlanSelection (lastMsg : Option String) : String :=
  match lastMsg with
  | none => ""
  | some m =>
    if pyContains m ("__PLAN__:") then
      pyLower (String.mk (pyStrip (splitPart1 m ("__PLAN__:")).data))
    else
      let lower := pyLower m
      if pyContains lower ("skip") || pyContains lower ("not ready") then
        "skip"
      else
        (([("standard"), ("plus"), ("pro")].find?
            (fun p => pyContains lower p)).getD (r""))

/-- Plan button of the turn-1 recommendation (lines 1010-1017). -/
def planButton (recPlan p : String) : Button :=
  let info := (planInfo? p).getD (PlanInfo.mk (r"") 0 0 0 0 0)
  let label := pyCapitalize p ++ " — $" ++ toString info.monthly ++ "/mo"
  let label := if p = recPlan then label ++ " (Recommended)" else label
  { label := label, value := "__PLAN__:" ++ p }

/-- Skip button, always appended last (line 1018). -/
def skipButton : Button :=
  { label := "Not ready yet — skip", value := "__PLAN__:skip" }

/-- Turn-1 button list: recommended plan first, then the remaining
plans in table order, then skip. -/
def planButtons (recPlan : String) : List Button :=
  (([recPlan] ++ ([("standard"), ("plus"), ("pro")].filter
      (fun p => p ≠ recPlan))).map (planButton recPlan)) ++ [skipButton]

/-- Billing-frequency buttons (lines 1059-1063 and 1094-1098). -/
def billingButtons (plan : PlanInfo) : List Button :=
  [{ label := "Monthly — $" ++ toString plan.monthly ++ "/mo"
     value := "__BILLING__:monthly" },
   { label := "Quarterly — $" ++ toString plan.quarterly ++ " (save 20%)"
     value := "__BILLING__:quarterly" },
   { label := "Annual — $" ++ toString plan.annual ++ " (save 40%)"
     value := "__BILLING__:annual" }]

/-- Price string of the chosen billing frequency (lines 1042-1047);
any unrecognised (but truthy) billing text falls into the annual arm,
as in the source. -/
def priceText (plan : PlanInfo) (billing : String) : String :=
  if billing = "monthly" then "$" ++ toString plan.monthly ++ "/mo"
  else if billing = "quarterly" then "$" ++ toString plan.quarterly ++ "/qtr"
  else "$" ++ toString plan.annual ++ "/yr"

/-- Turn-1 recommendation rule (lines 992-997): at most two included
regions recommends standard, three to five plus, more than five pro. -/
def recommendPlan (regionCount : Nat) : String :=
  if regionCount ≤ 2 then "standard"
  else if regionCount ≤ 5 then "plus"
  else "pro"

/-- Embeds `pricing_node`.  `lastMsg` is `_get_last_human_message`.
The only fallible point is the dict access `PRICING_PLANS[selected_plan]`
at line 1058, which would raise `KeyError` were `_selected_plan` ever
set to a non-plan (it never is: turn 2 validates before storing). -/
def pricingNode (lastMsg : Option String) (s : State) : Except Unit Patch :=
  let regions := (s.service_areas.regions_included).getD []
  let regionCount := regions.length
  if !s.pricing_shown then
    let recPlan := recommendPlan regionCount
    .ok { Patch.empty with
          current_node := some .pricing
          pricing_shown := some true
          buttons := some (planButtons recPlan)
          msgs := [.pricingIntro] }
  else if s.selected_plan ≠ "" then
    let billing := parseBilling lastMsg
    if billing ≠ "" && (planInfo? s.selected_plan).isSome then
      match planInfo? s.selected_plan with
      | some plan =>
        .ok { Patch.empty with
              current_node := some .pricing
              subscription_plan := some s.selected_plan
              subscription_billing := some billing
              subscription_price := some (priceText plan billing)
              msgs := [.pricingLockedIn] }
      | none => .error ()
    else
      match planInfo? s.selected_plan with
      | some plan =>
        .ok { Patch.empty with
              current_node := some .pricing
              buttons := some (billingButtons plan)
              msgs := [.pricingWhichPay] }
      | none => .error ()
  else
    let selected := parsePlanSelection lastMsg
    if selected = "skip" then
      .ok { Patch.empty with
            current_node := some .pricing
            subscription_plan := some (r"skip")
            msgs := [.pricingSkip] }
    else
      match planInfo? selected with
      | some plan =>
        .ok { Patch.empty with
              current_node := some .pricing
              selected_plan := some selected
              buttons := some (billingButtons plan)
              msgs := [.pricingGreatChoice] }
      | none =>
        .ok { Patch.empty with
              current_node := some .pricing
              buttons := some ((([("standard"), ("plus"), ("pro")].map
                  (planButton (r"")))) ++ [skipButton])
              msgs := [.pricingWhichPlan] }

/-! ## Postcode auto-disambiguation (`business_verification_node`,
`agent/graph.py` lines 133-152) -/

/-- Registry record as parsed from ABR responses. -/
structure AbrRec where
  abn : String
  entity_name : String
  entity_type : String
  gst_registered : Bool
  regState : String
  postcode : String
  status : String
  score : Int
deriving DecidableEq, Repr

/-- Outcome of the postcode-filter branch: auto-confirm one candidate
(the call to `_confirm_business`), or display a candidate list. -/
inductive Disamb where
  | autoSelect (r : AbrRec)
  | display (rs : List AbrRec)
deriving DecidableEq, Repr

/-- Embeds lines 134-152: filter the candidates to the user postcode;
exactly one match auto-confirms, several matches narrow the display,
zero matches fall through to the unfiltered list. -/
def disambiguate (results : List AbrRec) (userPostcode : String) : Disamb :=
  let filtered := results.filter (fun r => r.postcode = userPostcode)
  match filtered with
  | [r] => .autoSelect r
  | [] => .display results
  | _ :: _ :: _ => .display filtered

/-! ## Taxonomy gap resolver (`compute_service_gaps`,
`agent/tools.py` lines 249-344)

The category taxonomy is the lazily-loaded `subcategories.json`
resource (out-of-scope reference data), passed here as an association
list mirroring the JSON object; ids in the resource are integers. -/

/-- Taxonomy subcategory. -/
structure Subcat where
  subcategory_id : Int
  subcategory_name : String
deriving DecidableEq, Repr

/-- Taxonomy category entry. -/
structure CatData where
  category_name : String
  category_id : Int
  subcategories : List Subcat
deriving DecidableEq, Repr

/-- Association-list view of the taxonomy JSON object. -/
abbrev Categories := List (String × CatData)

/-- Dict lookup `categories[key]` / `key in categories`. -/
def lookupCat (cats : Categories) (key : String) : Option CatData :=
  (cats.find? (fun kv => kv.1 = key)).map (fun kv => kv.2)

/-- The `_TRADE_CATEGORY_MAP` keyword table (`agent/tools.py` lines
215-246), in declaration order. -/
def tradeCategoryMap : List (String × String) :=
  [("electri", "Electrician"), ("plumb", "Plumber"), ("paint", "Painter"),
   ("clean", "Cleaner"), ("garden", "Gardener"), ("landscap", "Landscaper"),
   ("carpent", "Carpenter"), ("build", "Builder"), ("roof", "Roofer"),
   ("tile", "Tiler"), ("concret", "Concreter"),
   ("fenc", "Fencing & Gate Company"), ("glass", "Glass Repair Company"),
   ("locksmith", "Locksmith"), ("handyman", "Handyman"),
   ("plaster", "Plasterer"), ("brick", "Bricklayer"),
   ("render", "Rendering Company"), ("pool", "Pool & Spa Company"),
   ("solar", "Solar Company"),
   ("air con", "Air Conditioning & Heating Technician"),
   ("hvac", "Air Conditioning & Heating Technician"),
   ("pest", "Exterminator"), ("waterproof", "Waterproofing Company"),
   ("insul", "Insulation Company"), ("floor", "Flooring Company"),
   ("kitchen", "Kitchen Renovation Company"),
   ("bathroom", "Bathroom Renovation Company"),
   ("secur", "Security Company"), ("gas fit", "Gas Fitter")]

/-- First keyword of the table occurring in the lowered text (the
`for keyword, cat_key in _TRADE_CATEGORY_MAP.items()` scan). -/
def keywordCategory (text : String) : Option String :=
  (tradeCategoryMap.find? (fun kv => pyContains (pyLower text) kv.1)).map
    (fun kv => kv.2)

/-- Category-name counts over the mapped services, in first-seen order
(Python dict insertion order). -/
def catCounts (services : List Service) : List (String × Nat) :=
  services.foldl
    (fun acc s =>
      let cn := s.category_name
      if cn = "" then acc
      else if acc.any (fun kv => kv.1 = cn) then
        acc.map (fun kv => if kv.1 = cn then (kv.1, kv.2 + 1) else kv)
      else acc ++ [(cn, 1)])
    []

/-- Python `max(d, key=d.get)`: the first key (in insertion order)
carrying the maximal count. -/
def maxByCount : List (String × Nat) → Option String
  | [] => none
  | kv :: rest =>
    some (rest.foldl (fun best cur => if cur.2 > best.2 then cur else best) kv).1

/-- Priority-1 resolution: majority category among mapped services,
kept only when it is a key of the taxonomy (lines 266-276). -/
def majorityCategory (cats : Categories) (services : List Service) : Option String :=
  match maxByCount (catCounts services) with
  | some mc => if (lookupCat cats mc).isSome then some mc else none
  | none => none

/-- Priority-3 resolution: first licence class with a keyword hit
(lines 287-295). -/
def licenceCategory (licenceClasses : List String) : Option String :=
  licenceClasses.findSome? keywordCategory

/-- The five-stage resolution chain of `compute_service_gaps` (lines
263-312); stages 2-5 do not check taxonomy membership, matching the
source, so a stage-2 hit with an unknown key still shadows stages 3-5. -/
def resolveCategory (cats : Categories) (services : List Service)
    (businessName : String) (licenceClasses : List String)
    (googleBusinessName googlePrimaryType : String) : Option String :=
  (majorityCategory cats services).orElse (fun _ =>
    (keywordCategory businessName).orElse (fun _ =>
      (licenceCategory licenceClasses).orElse (fun _ =>
        (keywordCategory googleBusinessName).orElse (fun _ =>
          keywordCategory googlePrimaryType))))

/-- Subcategory ids already mapped, coerced to integers with
unmappable ids discarded (lines 321-328; the Python `set` is modelled
as a list used only through membership). -/
def mappedIds (services : List Service) : List Int :=
  services.filterMap (fun s => s.subcategory_id.bind pyToInt)

/-- Gap entry (`subcategory_id, subcategory_name, category_id,
category_name`). -/
structure GapEntry where
  subcategory_id : Int
  subcategory_name : String
  category_id : Int
  category_name : String
deriving DecidableEq, Repr

/-- Gap entry built from a taxonomy subcategory (lines 336-342). -/
def mkGap (cat : CatData) (sc : Subcat) : GapEntry :=
  { subcategory_id := sc.subcategory_id
    subcategory_name := sc.subcategory_name
    category_id := cat.category_id
    category_name := cat.category_name }

/-- Embeds `compute_service_gaps`: resolve a category, then list its
subcategories whose (truthy) id is not among the mapped ids, in
declared order. -/
def computeServiceGaps (cats : Categories) (services : List Service)
    (businessName : String) (licenceClasses : List String)
    (googleBusinessName googlePrimaryType : String) : List GapEntry :=
  match resolveCategory cats services businessName licenceClasses
      googleBusinessName googlePrimaryType with
  | none => []
  | some key =>
    match lookupCat cats key with
    | none => []
    | some cat =>
      let mapped := mappedIds services
      (cat.subcategories.filter (fun sc =>
        sc.subcategory_id ≠ 0 && !(mapped.contains sc.subcategory_id))).map
        (mkGap cat)

/-! ## ABR name-search parsing (`_parse_jsonp_response`, name branch,
`agent/tools.py` lines 95-128)

The JSONP unwrapping and JSON decoding are wire-level concerns; the
embedded function starts from the decoded `Names` array. -/

/-- Entry of the ABR `Names` array (dict-get defaults applied). -/
structure NameEntry where
  abn : String
  name : String
  nameType : String
  entState : String
  postcode : String
  score : Int
deriving DecidableEq, Repr

/-- Is this name type a Business Name or Trading Name? -/
def isBT (t : String) : Bool :=
  t = "Business Name" || t = "Trading Name"

/-- Record built from a `Names` entry (lines 111-120). -/
def mkAbrRec (e : NameEntry) : AbrRec :=
  { abn := e.abn, entity_name := e.name, entity_type := e.nameType
    gst_registered := false, regState := e.entState
    postcode := e.postcode, status := "Active", score := e.score }

/-- One iteration of the `by_abn` dict loop (lines 100-125): skip
entries without an ABN; insert new ABNs; replace an existing record
only when the incoming entry is a Business/Trading Name. -/
def upsertByAbn (l : List (String × AbrRec)) (e : NameEntry) :
    List (String × AbrRec) :=
  if e.abn = "" then l
  else if l.any (fun kv => kv.1 = e.abn) then
    if isBT e.nameType then
      l.map (fun kv => if kv.1 = e.abn then (kv.1, mkAbrRec e) else kv)
    else l
  else l ++ [(e.abn, mkAbrRec e)]

/-- Embeds the name-search branch: deduplicate by ABN (Python dict in
insertion order), then keep at most five records. -/
def parseNameSearch (names : List NameEntry) : List AbrRec :=
  ((names.foldl upsertByAbn []).map (fun kv => kv.2)).take 5

/-! ## AI photo filter (`ai_filter_photos`, `agent/tools.py` lines
1124-1248)

Downloads and the vision classifier are external; the HTTP outcome per
URL and the per-image verdicts are parameters.  Everything downstream
of them — the size gate, the media-type guess, the WORK filter and the
JPEG fallback — is embedded from the source. -/

/-- Outcome of the HTTP GET for one candidate URL (`none` = the request
raised). -/
structure Fetched where
  status : Nat
  contentType : String
  size : Nat
deriving DecidableEq, Repr

/-- Successfully downloaded candidate (has non-empty base64 data). -/
structure DCand where
  url : String
  mediaType : String
  size : Nat
deriving DecidableEq, Repr

/-- Media-type resolution of `_download` (lines 1151-1167): derived
from the response content type, else guessed from the URL, defaulting
to JPEG. -/
def mediaTypeOf (url contentType : String) : String :=
  if pyContains contentType ("jpeg") || pyContains contentType ("jpg") then
    "image/jpeg"
  else if pyContains contentType ("png") then "image/png"
  else if pyContains contentType ("webp") then "image/webp"
  else if pyContains contentType ("gif") then "image/gif"
  else if pyContains (pyLower url) (".png") then "image/png"
  else if pyContains (pyLower url) (".webp") then "image/webp"
  else "image/jpeg"

/-- Embeds `_download` (lines 1140-1179): non-200 responses, failures,
and bodies below 5 KB or above 2 MB yield no candidate. -/
def downloadResult (url : String) (f : Option Fetched) : Option DCand :=
  match f with
  | none => none
  | some fe =>
    if fe.status ≠ 200 then none
    else if fe.size < 5000 || fe.size > 2000000 then none
    else some { url := url, mediaType := mediaTypeOf url fe.contentType
                size := fe.size }

/-- Is this candidate eligible for the JPEG fallback (lines
1237-1238)? -/
def isBigJpeg (d : DCand) : Bool :=
  d.mediaType = "image/jpeg" && d.size ≥ 20000

/-- Embeds the post-classification logic (lines 1227-1243): keep the
WORK-labelled images (1-indexed verdicts); if none were kept, fall back
to the first four downloaded JPEGs of at least 20 KB, else return the
empty list. -/
def aiFilterCore (valid : List DCand) (verdict : Nat → Bool) : List String :=
  let kept := (valid.enum.filter (fun p => verdict (p.1 + 1))).map
    (fun p => p.2.url)
  if kept.isEmpty then
    let jpegFallback := (valid.filter isBigJpeg).map (fun d => d.url)
    if !jpegFallback.isEmpty then jpegFallback.take 4 else kept
  else kept

/-- Embeds `ai_filter_photos` end to end: download the first eight
URLs, collect the successful downloads, then classify.  `verdicts =
none` models the classifier call raising, in which case all downloaded
URLs are returned unfiltered (lines 1245-1248). -/
def aiFilterPhotos (fetch : String → Option Fetched)
    (verdicts : Option (Nat → Bool)) (photoUrls : List String) : List String :=
  if photoUrls.isEmpty then []
  else
    let valid := (photoUrls.take 8).filterMap (fun u => downloadResult u (fetch u))
    if valid.isEmpty then []
    else
      match verdicts with
      | none => valid.map (fun d => d.url)
      | some v => aiFilterCore valid v

/-! ## Concrete instances used by counterexamples and witnesses -/

/-- Handler map in which every step handler raises. -/
def raisingNodes : Nodes := fun _ _ => .error ()

/-- Sample mapped service (Plumber / Hot Water). -/
def exService : Service :=
  { input := "hot water systems", category_name := "Plumber"
    category_id := some (.vint 7), subcategory_name := "Hot Water Systems"
    subcategory_id := some (.vint 701) }

/-- Session entering the parallel path: verified, one mapped service,
services and areas unconfirmed, no region data yet. -/
def parState : State :=
  { State.fresh with
    business_verified := true
    services := [exService] }

/-- Service-discovery patch that does not complete the step. -/
def parSvcPatch : Patch :=
  { Patch.empty with
    current_node := some .service_discovery
    services := some [exService]
    services_confirmed := some false
    svcTurn := some 2
    msgs := [.svcAnswer] }

/-- Service-area patch that does complete its step and carries region
data. -/
def parAreaPatch : Patch :=
  { Patch.empty with
    current_node := some .service_area
    service_areas := some { Areas.empty with
      base_suburb := some (r"Manly")
      base_postcode := some (r"2095")
      regions_included := some ["Northern Beaches"]
      regions_excluded := some [] }
    service_areas_confirmed := some true }

/-- Handler map for the parallel-path scenario. -/
def parNodes : Nodes := fun n _ =>
  match n with
  | .service_discovery => .ok parSvcPatch
  | .service_area => .ok parAreaPatch
  | _ => .ok Patch.empty

/-- Session about to run the service-area step (identity and services
settled). -/
def c4State : State :=
  { State.fresh with
    business_verified := true
    services := [exService]
    services_confirmed := true }

/-- Area patch completing the step. -/
def c4AreaPatch : Patch :=
  { Patch.empty with
    current_node := some .service_area
    service_areas := some { Areas.empty with
      base_suburb := some (r"Manly")
      base_postcode := some (r"2095")
      regions_included := some ["Northern Beaches"]
      regions_excluded := some [] }
    service_areas_confirmed := some true }

/-- Profile patch producing a draft but not saving (the step waits for
the user to press Save). -/
def c4ProfilePatch : Patch :=
  { Patch.empty with
    current_node := some .profile
    profile_description := some (r"Reliable local plumber.")
    profile_description_draft := some (r"Reliable local plumber.")
    years_in_business := some 9 }

/-- Handler map for the early-result scenario. -/
def c4Nodes : Nodes := fun n _ =>
  match n with
  | .service_area => .ok c4AreaPatch
  | .profile => .ok c4ProfilePatch
  | _ => .ok Patch.empty

/-- Nine ASCII digits: all digits and at least nine characters. -/
def nineDigits : List Char :=
  String.data (r"123456789")

/-- LLM oracle that never maps a service and never completes. -/
def c5Oracle : Nat → SvcLLM := fun _ =>
  .json (some []) (some false) []

/-- Registry candidates: exactly one in postcode 2155. -/
def c6Recs : List AbrRec :=
  [{ abn := "51824753556", entity_name := "DANS PLUMBING PTY LTD"
     entity_type := "Australian Private Company", gst_registered := true
     regState := "NSW", postcode := "2155", status := "Active", score := 100 },
   { abn := "99123456789", entity_name := "DANS PLUMBING (VIC)"
     entity_type := "Australian Private Company", gst_registered := true
     regState := "VIC", postcode := "3000", status := "Active", score := 90 }]

/-- Fetch outcome: a 30000-byte PNG for every URL. -/
def c7Fetch : String → Option Fetched := fun _ =>
  some { status := 200, contentType := "image/png", size := 30000 }

/-- Classifier labelling every image SKIP. -/
def c7Verdict : Nat → Bool := fun _ => false

/-- Candidate list for the photo-filter counterexample. -/
def c7Urls : List String :=
  ["https://example.com/gallery/big-project.png"]

/-- Plumber category with two subcategories. -/
def c8Plumber : CatData :=
  { category_name := "Plumber", category_id := 7
    subcategories := [{ subcategory_id := 701, subcategory_name := "Hot Water Systems" },
                      { subcategory_id := 702, subcategory_name := "Blocked Drains" }] }

/-- Two-subcategory Plumber taxonomy. -/
def c8Cats : Categories :=
  [("Plumber", c8Plumber)]

/-- Services covering both subcategories, one id arriving as a JSON
string to exercise the integer coercion. -/
def c8Services : List Service :=
  [exService,
   { input := "drains", category_name := "Plumber"
     category_id := some (.vint 7), subcategory_name := "Blocked Drains"
     subcategory_id := some (.vstr (r"702")) }]

/-- ABR name-search entries: the same ABN first as an Entity Name and
then as a Business Name. -/
def c9Names : List NameEntry :=
  [{ abn := "51824753556", name := "SMITH, DANIEL"
     nameType := "Entity Name", entState := "NSW", postcode := "2155"
     score := 100 },
   { abn := "51824753556", name := "DANS PLUMBING"
     nameType := "Business Name", entState := "NSW", postcode := "2155"
     score := 98 },
   { abn := "99123456789", name := "OTHER BUSINESS"
     nameType := "Entity Name", entState := "VIC", postcode := "3000"
     score := 50 }]

/-- Session entering pricing turn 1 with three included regions. -/
def c10State : State :=
  { State.fresh with
    business_verified := true
    services := [exService]
    services_confirmed := true
    service_areas_confirmed := true
    profile_saved := true
    confirmed := true
    service_areas := { Areas.empty with
      base_suburb := some (r"Manly")
      regions_included := some ["Northern Beaches", "North Shore", "Inner West"]
      regions_excluded := some [] } }

/-- Service-discovery patch that completes the step (used by the C2
witness scenario). -/
def parSvcDonePatch : Patch :=
  { Patch.empty with
    current_node := some .service_discovery
    services := some [exService]
    services_confirmed := some true
    svcTurn := some 2
    msgs := [.svcAnswer] }

/-- Service-area patch that does not complete its step but carries
partial data. -/
def parAreaOpenPatch : Patch :=
  { Patch.empty with
    current_node := some .service_area
    service_areas := some { Areas.empty with
      base_suburb := some (r"Manly")
      base_postcode := some (r"2095") }
    service_areas_confirmed := some false
    buttons := some [{ label := "Northern Beaches", value := "Northern Beaches" }]
    msgs := [.svcAnswer] }

/-- Handler map where service discovery completes and service area
stays open. -/
def parDoneNodes : Nodes := fun n _ =>
  match n with
  | .service_discovery => .ok parSvcDonePatch
  | .service_area => .ok parAreaOpenPatch
  | _ => .ok Patch.empty

/-- Downloaded candidates for the fallback witness: one large JPEG and
one large PNG. -/
def c7Valid : List DCand :=
  [{ url := "https://example.com/gallery/job1.jpg"
     mediaType := "image/jpeg", size := 25000 },
   { url := "https://example.com/gallery/big-project.png"
     mediaType := "image/png", size := 30000 }]

/-- Invariant of the `by_abn` association list: pairwise-distinct,
non-empty keys, each record keyed by its own ABN. -/
def goodAbn (l : List (String × AbrRec)) : Prop :=
  (l.map Prod.fst).Nodup ∧ (∀ kv ∈ l, kv.2.abn = kv.1) ∧ ∀ kv ∈ l, kv.1 ≠ ""

/-- Every record stored under key `k` has a Business/Trading Name
type. -/
def btAt (l : List (String × AbrRec)) (k : String) : Prop :=
  ∀ kv ∈ l, kv.1 = k → isBT kv.2.entity_type = true

/-! ## Helper lemmas -/

/-- The classification bit of `resolveQuery` in closed form. -/
theorem resolveQuery_isAbn_eq (msg : List Char) :
    (resolveQuery msg).isAbn =
      (pyIsDigit (removeSpaces (pyStrip msg)) &&
        decide ((removeSpaces (pyStrip msg)).length = 11)) := by
  unfold resolveQuery
  cases findTrailingPostcode (pyStrip msg) with
  | none => rfl
  | some ic =>
    cases ic with
    | mk i code =>
      dsimp only
      split <;> rfl

/-- The match index returned by `findTrailingPostcode` is within the
subject. -/
theorem findTrailingPostcode_le (st : List Char) (i : Nat) (code : List Char)
    (h : findTrailingPostcode st = some (i, code)) : i ≤ st.length := by
  unfold findTrailingPostcode at h
  dsimp only at h
  split at h
  · split at h
    · split at h
      · cases h; omega
      · split at h
        · split at h
          · cases h
          · cases h; omega
        · cases h
    · cases h
  · cases h

/-- A list without leading whitespace is its stripped core followed by
trailing whitespace. -/
theorem eq_pyStrip_append (msg : List Char) (h : msg.dropWhile isPySpace = msg) :
    msg = pyStrip msg ++ (msg.reverse.takeWhile isPySpace).reverse := by
  unfold pyStrip
  rw [h, ← List.reverse_append, List.takeWhile_append_dropWhile,
    List.reverse_reverse]

/-! ## Claim C1 -/

/-- Claim C1 (counterexample): on a fresh session with every handler
raising, `run_node` does not catch the exception and produce a
response state — the error propagates out of the orchestrator, so no
generic clarifying prompt is substituted at the `run_node` boundary. -/
theorem C1_counterexample :
    runNode raisingNodes State.fresh = Except.error () := by
  rfl

/-- Claim C1 (amended): `run_node` contains no exception handler.
When the step handler selected by `determine_node` raises, the
exception propagates out of `run_node` unchanged; consequently no
patch is merged, so the step completion flags are untouched and the
session stays on the same step, but no substitute response is produced
by the orchestrator (the catch-and-reprompt behaviour lives inside
individual step handlers, around their response parsing). -/
theorem C1_handler_error_propagates (nodes : Nodes) (s : State)
    (h : nodes (determineNode s) s = .error ()) :
    runNode nodes s = .error () := by
  unfold runNode
  dsimp only
  split
  next hcond =>
    simp only [Bool.and_eq_true, decide_eq_true_eq] at hcond
    rw [hcond.1.1.1] at h
    rw [h]
    rfl
  next =>
    rw [h]
    rfl

/-- Claim C1 (witness): the amended statement applied to the concrete
raising scenario. -/
theorem C1_witness : runNode raisingNodes parState = Except.error () :=
  C1_handler_error_propagates raisingNodes parState rfl

/-! ## Claim C3 -/

/-- Claim C3 (counterexample): a nine-digit query is a numeric
identifier per the specification rule (all digits, at least nine
characters) but the code classifies it as a name search, because the
code requires exactly eleven digits. -/
theorem C3_counterexample :
    specNumericIdentifier nineDigits = true ∧
      (resolveQuery nineDigits).isAbn = false := by
  exact ⟨rfl, rfl⟩

/-- Claim C3 (amended): after removing spaces from the stripped
message, the query is classified as a numeric identifier (ABN lookup)
iff it is all digits and exactly 11 characters long; otherwise a
trailing four-digit token (at a word boundary) of the stripped message
is detected as the postal-code hint, and the search term is the
original message truncated at the match index and re-stripped — which,
for messages without leading whitespace, is exactly the stripped
remainder before the postcode token. -/
theorem C3_query_classification (msg : List Char) :
    ((resolveQuery msg).isAbn = true ↔
      pyIsDigit (removeSpaces (pyStrip msg)) = true ∧
        (removeSpaces (pyStrip msg)).length = 11) ∧
    (∀ i code, (resolveQuery msg).isAbn = false →
      findTrailingPostcode (pyStrip msg) = some (i, code) →
      (resolveQuery msg).postcode = some code ∧
        (resolveQuery msg).searchTerm = pyStrip (msg.take i)) ∧
    (msg.dropWhile isPySpace = msg →
      ∀ i code, (resolveQuery msg).isAbn = false →
        findTrailingPostcode (pyStrip msg) = some (i, code) →
        (resolveQuery msg).searchTerm = pyStrip ((pyStrip msg).take i)) := by
  have hiff : (resolveQuery msg).isAbn = true ↔
      pyIsDigit (removeSpaces (pyStrip msg)) = true ∧
        (removeSpaces (pyStrip msg)).length = 11 := by
    rw [resolveQuery_isAbn_eq]
    simp [Bool.and_eq_true]
  have hterm : ∀ i code, (resolveQuery msg).isAbn = false →
      findTrailingPostcode (pyStrip msg) = some (i, code) →
      (resolveQuery msg).postcode = some code ∧
        (resolveQuery msg).searchTerm = pyStrip (msg.take i) := by
    intro i code hfalse hfind
    have hb : (pyIsDigit (removeSpaces (pyStrip msg)) &&
        decide ((removeSpaces (pyStrip msg)).length = 11)) = false := by
      rw [← resolveQuery_isAbn_eq]; exact hfalse
    unfold resolveQuery
    rw [hfind]
    simp only [hb]
    exact ⟨rfl, rfl⟩
  refine ⟨hiff, hterm, ?_⟩
  intro hnl i code hfalse hfind
  have h1 := (hterm i code hfalse hfind).2
  have hle : i ≤ (pyStrip msg).length :=
    findTrailingPostcode_le (pyStrip msg) i code hfind
  have hsplit := eq_pyStrip_append msg hnl
  have htake : msg.take i = (pyStrip msg).take i := by
    conv_lhs => rw [hsplit]
    exact List.take_append_of_le_length hle
  rw [h1, htake]

/-- Claim C3 (witness): `dans plumbing 2155` is a name query with
postcode hint `2155` and search term `dans plumbing`. -/
theorem C3_witness :
    (resolveQuery (String.data (r"dans plumbing 2155"))).postcode =
        some (String.data (r"2155")) ∧
      (resolveQuery (String.data (r"dans plumbing 2155"))).searchTerm =
        String.data (r"dans plumbing") :=
  ((C3_query_classification (String.data (r"dans plumbing 2155"))).2.1
    14 (String.data (r"2155")) rfl rfl).imp (fun h => h) (fun h => h)

/-! ## Claim C4 -/

/-- Claim C4 (counterexample): running the orchestrator on a session
whose service-area step completes makes the auto-chain set `confirmed`
while the profile step still awaits the user, so `get_result` already
reports a (empty) completed result although `determine_node` still
places the session on the profile step — refuting that a result is
never returned for a session on an earlier step. -/
theorem C4_counterexample :
    (runNode c4Nodes c4State).toOption.map
        (fun s => (getResult s, determineNode s, s.profile_saved)) =
      some (GetResult.complete none, NodeName.profile, false) := by
  rfl

/-- Claim C4 (amended): `getFinalResult` returns pending exactly while
the session's `confirmed` flag is false; the flag is set by the
auto-chain as soon as the service areas are confirmed (skipping the
confirmation step), which can happen before the terminal step, so a
session still on the profile or pricing step can already receive a
(still empty) result.  Once the terminal `complete_node` has run and
been merged, the finalized structured record is returned. -/
theorem C4_result_gating (s : State) :
    (getResult s = .pending ↔ s.confirmed = false) ∧
    getResult (mergeClear s (completeNode s)) =
      .complete (some (buildOutput s)) := by
  constructor
  · cases h : s.confirmed <;> simp [getResult, h]
  · rfl

/-! ## Claim C6 -/

/-- Claim C6 (confirmed): filtering the registry candidates to the
postal-code hint auto-selects iff the filtered set has exactly one
element; several matches narrow the displayed list to the filtered
candidates; zero matches fall back to the unfiltered list. -/
theorem C6_postcode_disambiguation (results : List AbrRec) (pc : String) :
    ((∃ r, disambiguate results pc = .autoSelect r) ↔
      (results.filter (fun r => r.postcode = pc)).length = 1) ∧
    ((results.filter (fun r => r.postcode = pc)).length > 1 →
      disambiguate results pc =
        .display (results.filter (fun r => r.postcode = pc))) ∧
    ((results.filter (fun r => r.postcode = pc)) = [] →
      disambiguate results pc = .display results) := by
  unfold disambiguate
  cases h : results.filter (fun r => r.postcode = pc) with
  | nil => simp [h]
  | cons a t =>
    cases t with
    | nil => simp [h]
    | cons b t2 => simp [h]

/-- Claim C6 (witness): exactly one candidate in postcode 2155
auto-selects; a postcode with no matches displays the unfiltered
list. -/
theorem C6_witness :
    (∃ r, disambiguate c6Recs (r"2155") = .autoSelect r) ∧
      disambiguate c6Recs (r"9999") = .display c6Recs :=
  ⟨(C6_postcode_disambiguation c6Recs (r"2155")).1.mpr (by rfl),
   (C6_postcode_disambiguation c6Recs (r"9999")).2.2 (by rfl)⟩

/-! ## Claim C2 -/

/-- Auto-chain tail is a no-op when areas are unconfirmed, the profile
is unsaved and no plan is chosen. -/
theorem chainTail_of_flags (nodes : Nodes) (s : State)
    (hac : s.service_areas_confirmed = false)
    (hps : s.profile_saved = false)
    (hsub : s.subscription_plan = "") :
    chainTail nodes s = .ok s := by
  unfold chainTail
  simp [hac, hps, hsub]
  rfl

/-- Claim C2 (counterexample): in the concurrent fire where only the
service-area branch completes (`parAreaPatch` sets its flag true and
carries region data) while service discovery does not, the orchestrator
discards the area patch entirely: the merged session has no region data
and `service_areas_confirmed` is still false — refuting that both
patches are merged and that the completed step's flag reflects its
success. -/
theorem C2_counterexample :
    (runNode parNodes parState).toOption.map
        (fun s => (s.services_confirmed, s.service_areas_confirmed,
          s.service_areas.regions_included)) =
      some (false, false, none) := by
  rfl

/-- Claim C2 (amended): when the orchestrator fires the two adjacent
steps concurrently, the outcome is asymmetric.  If the
service-discovery branch completes (flag true) while the service-area
branch does not, both patches are merged — the area data is kept
pending with its flag false — and the chain stops there.  If the
service-discovery branch does not complete, the service-area patch is
discarded entirely (its data and flag are lost), whatever the area
branch reported. -/
theorem C2_parallel_merge (nodes : Nodes) (s : State) (p1 p2 : Patch)
    (hdet : determineNode s = .service_discovery)
    (hsv : s.services.isEmpty = false)
    (hreg : s.service_areas.regionsIncludedTruthy = false)
    (hac : s.service_areas_confirmed = false)
    (h1 : nodes .service_discovery s = .ok p1)
    (h2 : nodes .service_area s = .ok p2) :
    (p1.services_confirmed = some true →
      p2.services_confirmed = none →
      p2.service_areas_confirmed = some false →
      (mergeClear (mergeRaw s p1) p2).profile_saved = false →
      (mergeClear (mergeRaw s p1) p2).subscription_plan = "" →
      runNode nodes s = .ok (mergeClear (mergeRaw s p1) p2) ∧
        (mergeClear (mergeRaw s p1) p2).services_confirmed = true ∧
        (mergeClear (mergeRaw s p1) p2).service_areas_confirmed = false) ∧
    ((mergeRaw s p1).services_confirmed = false →
      runNode nodes s = .ok (mergeRaw s p1)) := by
  have hcond : (decide (determineNode s = NodeName.service_discovery)
      && !s.services.isEmpty && !s.service_areas.regionsIncludedTruthy
      && !s.service_areas_confirmed) = true := by
    simp [hdet, hsv, hreg, hac]
  constructor
  · intro hc1 hc2n hc2 hps hsub
    have hflag : (mergeRaw s p1).services_confirmed = true := by
      simp [mergeRaw, hc1]
    have hs2ac : (mergeClear (mergeRaw s p1) p2).service_areas_confirmed = false := by
      simp [mergeClear, mergeRaw, hc2]
    have hs2sc : (mergeClear (mergeRaw s p1) p2).services_confirmed = true := by
      simp [mergeClear, mergeRaw, hc2n, hc1]
    refine ⟨?_, hs2sc, hs2ac⟩
    unfold runNode
    dsimp only
    rw [if_pos hcond, h1, h2]
    dsimp only [Bind.bind, Except.bind]
    rw [if_pos hflag]
    exact chainTail_of_flags nodes _ hs2ac hps hsub
  · intro hflag
    unfold runNode
    dsimp only
    rw [if_pos hcond, h1, h2]
    dsimp only [Bind.bind, Except.bind]
    rw [if_neg]
    · rfl
    · rw [hflag]
      exact Bool.false_ne_true

/-- Claim C2 (witness): the true half of the amended statement at a
concrete session — service discovery completes, service area stays
open, both patches are merged and the area remains pending. -/
theorem C2_witness :
    runNode parDoneNodes parState =
      .ok (mergeClear (mergeRaw parState parSvcDonePatch) parAreaOpenPatch) :=
  ((C2_parallel_merge parDoneNodes parState parSvcDonePatch parAreaOpenPatch
    rfl rfl rfl rfl rfl rfl).1 rfl rfl rfl rfl rfl).1

/-! ## Claim C5 -/

/-- A confirmed service step stays confirmed under re-invocation (the
early-return patch carries no flag key). -/
theorem svcStep_keeps_confirmed (llm : SvcLLM) (s : State)
    (h : s.services_confirmed = true) :
    (svcStep llm s).services_confirmed = true := by
  unfold svcStep svcNode
  simp [h, mergeClear, mergeRaw, Patch.empty]

/-- Once the turn counter exceeds 5, one invocation forces the flag and
leaves the mapped services untouched, whatever the LLM would say. -/
theorem svcStep_cap (llm : SvcLLM) (s : State) (h : s.svcTurnVal > 5) :
    (svcStep llm s).services_confirmed = true ∧
      (svcStep llm s).services = s.services := by
  unfold svcStep svcNode
  cases hcf : s.services_confirmed
  · simp [hcf, h, mergeClear, mergeRaw, Patch.empty]
  · simp [hcf, mergeClear, mergeRaw, Patch.empty]

/-- Below the cap, an unconfirmed invocation stores an incremented turn
counter, for every LLM outcome. -/
theorem svcStep_turn (llm : SvcLLM) (s : State)
    (hc : s.services_confirmed = false) (hcap : ¬ s.svcTurnVal > 5) :
    (svcStep llm s).svcTurn = some (s.svcTurnVal + 1) := by
  unfold svcStep svcNode
  cases llm <;> simp [hc, hcap, mergeClear, mergeRaw, Patch.empty]

/-- Counter invariant: starting from a fresh counter, after `n`
invocations the step is either already confirmed or its counter reads
`n + 1`. -/
theorem svcIter_invariant (o : Nat → SvcLLM) (s0 : State)
    (h0 : s0.svcTurn = none) (n : Nat) :
    (svcIter o n s0).services_confirmed = true ∨
      (svcIter o n s0).svcTurnVal = n + 1 := by
  induction n with
  | zero =>
    right
    simp [svcIter, State.svcTurnVal, h0]
  | succ k ih =>
    by_cases hc : (svcIter o k s0).services_confirmed = true
    · exact Or.inl (svcStep_keeps_confirmed (o k) _ hc)
    · have hcf : (svcIter o k s0).services_confirmed = false :=
        Bool.not_eq_true _ ▸ (Bool.eq_false_iff.mpr (fun h => hc h))
      rcases ih with hT | hV
      · exact absurd hT hc
      · by_cases hcap : (svcIter o k s0).svcTurnVal > 5
        · exact Or.inl (svcStep_cap (o k) _ hcap).1
        · right
          show (svcStep (o k) (svcIter o k s0)).svcTurnVal = k + 1 + 1
          have ht := svcStep_turn (o k) _ hcf hcap
          unfold State.svcTurnVal
          rw [ht, hV]
          rfl

/-- Claim C5 (confirmed): the service-discovery safety cap.  From a
fresh session, if five invocations have not confirmed the step, the
counter reads 6, so the sixth invocation exceeds the configured
maximum of 5 and forces `services_confirmed` true; and in general any
invocation whose entering counter exceeds 5 forces the flag while
leaving the mapped services unchanged (hence completion is forced even
with zero services mapped), regardless of the LLM outcome. -/
theorem C5_safety_cap (o : Nat → SvcLLM) (s0 : State) (h0 : s0.svcTurn = none) :
    ((svcIter o 5 s0).services_confirmed = false →
      (svcIter o 6 s0).services_confirmed = true) ∧
    (∀ (llm : SvcLLM) (s : State), s.svcTurnVal > 5 →
      (svcStep llm s).services_confirmed = true ∧
        (svcStep llm s).services = s.services) := by
  refine ⟨?_, fun llm s h => svcStep_cap llm s h⟩
  intro h5
  rcases svcIter_invariant o s0 h0 5 with hT | hV
  · rw [h5] at hT
    exact absurd hT Bool.false_ne_true
  · have hcap : (svcIter o 5 s0).svcTurnVal > 5 := by
      rw [hV]
      omega
    exact (svcStep_cap (o 5) (svcIter o 5 s0) hcap).1

/-- Claim C5 (witness): with an LLM that never completes and maps
nothing, five invocations leave the step open, and the sixth forces
completion with zero services mapped. -/
theorem C5_witness :
    (svcIter c5Oracle 5 State.fresh).services_confirmed = false ∧
      (svcIter c5Oracle 6 State.fresh).services_confirmed = true ∧
      (svcIter c5Oracle 6 State.fresh).services = [] :=
  ⟨rfl, (C5_safety_cap c5Oracle State.fresh rfl).1 rfl, rfl⟩

/-! ## Claim C7 -/

/-- Claim C7 (counterexample): every candidate is labelled SKIP and the
single raw candidate — a 30000-byte PNG, well above both byte-size
thresholds (5 KB download floor, 20 KB fallback floor) — exceeds the
minimum size, yet the final result is empty: the fallback admits only
JPEGs, so no photo-type PNG ever rescues the result. -/
theorem C7_counterexample :
    aiFilterPhotos c7Fetch (some c7Verdict) c7Urls = [] := by
  rfl

/-- Claim C7 (amended): if the classifier labels every downloaded
candidate SKIP, the filter falls back to the downloaded JPEG candidates
of at least 20 KB — in their original order, not sorted by size —
capped to four; hence the final result is non-empty iff some downloaded
candidate is a JPEG of at least 20 KB.  PNG/WebP candidates never enter
the fallback however large they are. -/
theorem C7_jpeg_fallback (valid : List DCand) (v : Nat → Bool)
    (hall : ∀ i, i < valid.length → v (i + 1) = false) :
    aiFilterCore valid v =
      ((valid.filter isBigJpeg).map (fun d => d.url)).take 4 ∧
    (aiFilterCore valid v ≠ [] ↔ valid.any isBigJpeg = true) := by
  have hlt : ∀ x ∈ valid.enum, x.1 < valid.length :=
    List.forall_mem_enum.mpr (fun i hi => by simpa using hi)
  have hk : valid.enum.filter (fun p => v (p.1 + 1)) = [] := by
    rw [List.filter_eq_nil_iff]
    intro p hp
    have := hall p.1 (hlt p hp)
    simp [this]
  have hcore : aiFilterCore valid v =
      ((valid.filter isBigJpeg).map (fun d => d.url)).take 4 := by
    unfold aiFilterCore
    dsimp only
    rw [hk]
    cases hj : valid.filter isBigJpeg with
    | nil => simp [hj]
    | cons a t => simp [hj]
  refine ⟨hcore, ?_⟩
  rw [hcore]
  cases hj : valid.filter isBigJpeg with
  | nil =>
    simp only [hj, List.map_nil, List.take_nil, ne_eq, not_true_eq_false,
      false_iff]
    intro hany
    rcases List.any_eq_true.mp hany with ⟨d, hd, hbig⟩
    have : d ∈ valid.filter isBigJpeg := List.mem_filter.mpr ⟨hd, hbig⟩
    rw [hj] at this
    exact absurd this (List.not_mem_nil d)
  | cons a t =>
    simp only [hj, List.map_cons, List.take_succ_cons, ne_eq]
    constructor
    · intro _
      have ha : a ∈ valid.filter isBigJpeg := by rw [hj]; exact List.mem_cons_self a t
      rcases List.mem_filter.mp ha with ⟨hav, hab⟩
      exact List.any_eq_true.mpr ⟨a, hav, hab⟩
    · intro _
      simp

/-- Claim C7 (witness): with both a large JPEG and a large PNG
downloaded and every image labelled SKIP, the fallback keeps exactly
the JPEG. -/
theorem C7_witness :
    aiFilterCore c7Valid c7Verdict =
      ((c7Valid.filter isBigJpeg).map (fun d => d.url)).take 4 ∧
    (aiFilterCore c7Valid c7Verdict ≠ [] ↔ c7Valid.any isBigJpeg = true) :=
  C7_jpeg_fallback c7Valid c7Verdict (fun _ _ => rfl)

/-! ## Claim C8 -/

/-- Claim C8 (confirmed): whenever the resolution chain settles on a
taxonomy category, a mapped-service list covering every subcategory of
that category (ids coerced to integers, unmappable ids discarded)
yields an empty gap list; and every returned gap entry is a subcategory
of the resolved category whose id is absent from the mapped ids, listed
as a sublist of the category's declared order. -/
theorem C8_gap_resolver (cats : Categories) (services : List Service)
    (bn : String) (lcs : List String) (gn gt : String)
    (key : String) (cat : CatData)
    (hres : resolveCategory cats services bn lcs gn gt = some key)
    (hcat : lookupCat cats key = some cat) :
    ((∀ sc ∈ cat.subcategories,
        (mappedIds services).contains sc.subcategory_id = true) →
      computeServiceGaps cats services bn lcs gn gt = []) ∧
    (∀ g ∈ computeServiceGaps cats services bn lcs gn gt,
      ∃ sc ∈ cat.subcategories, g = mkGap cat sc ∧
        (mappedIds services).contains sc.subcategory_id = false) ∧
    (computeServiceGaps cats services bn lcs gn gt).Sublist
      (cat.subcategories.map (mkGap cat)) := by
  have hgaps : computeServiceGaps cats services bn lcs gn gt =
      (cat.subcategories.filter (fun sc =>
        sc.subcategory_id ≠ 0 &&
          !((mappedIds services).contains sc.subcategory_id))).map
        (mkGap cat) := by
    unfold computeServiceGaps
    rw [hres]
    dsimp only
    rw [hcat]
  refine ⟨?_, ?_, ?_⟩
  · intro hcov
    rw [hgaps]
    have hnil : cat.subcategories.filter (fun sc =>
        sc.subcategory_id ≠ 0 &&
          !((mappedIds services).contains sc.subcategory_id)) = [] := by
      rw [List.filter_eq_nil_iff]
      intro sc hsc
      have hct := hcov sc hsc
      simp [hct]
      intro hne
      simpa using hct
    rw [hnil]
    rfl
  · intro g hg
    rw [hgaps] at hg
    rcases List.mem_map.mp hg with ⟨sc, hscf, hsceq⟩
    rcases List.mem_filter.mp hscf with ⟨hscm, hpred⟩
    refine ⟨sc, hscm, hsceq.symm, ?_⟩
    have hp := (Bool.and_eq_true _ _).mp hpred
    simpa using hp.2
  · rw [hgaps]
    exact List.Sublist.map _ (List.filter_sublist _)

/-- Claim C8 (witness): a Plumber resolved by majority vote with both
subcategories covered (one id arriving as the string `702`) yields no
gaps. -/
theorem C8_witness :
    computeServiceGaps c8Cats c8Services (r"Dans Plumbing") [] (r"") (r"") = [] :=
  (C8_gap_resolver c8Cats c8Services (r"Dans Plumbing") [] (r"") (r"")
    (r"Plumber") c8Plumber rfl rfl).1 (by decide)

/-! ## Claim C10 -/

/-- Claim C10 (confirmed): on the first pricing invocation
(`pricing_shown` false) the handler deterministically recommends a plan
from the included-region count alone — at most 2 regions: standard, 3
to 5: plus, more than 5: pro — and returns the button list with the
recommended plan's button first and the skip option last. -/
theorem C10_plan_recommendation (lastMsg : Option String) (s : State)
    (h : s.pricing_shown = false) :
    (pricingNode lastMsg s = .ok { Patch.empty with
        current_node := some .pricing
        pricing_shown := some true
        buttons := some (planButtons
          (recommendPlan ((s.service_areas.regions_included).getD []).length))
        msgs := [.pricingIntro] }) ∧
    (∀ n : Nat, (n ≤ 2 → recommendPlan n = "standard") ∧
      (2 < n → n ≤ 5 → recommendPlan n = "plus") ∧
      (5 < n → recommendPlan n = "pro")) ∧
    (∀ p, (planButtons p).head? = some (planButton p p)) ∧
    (∀ p, (planButtons p).getLast? = some skipButton) := by
  refine ⟨?_, ?_, ?_, ?_⟩
  · unfold pricingNode
    rw [h]
    rfl
  · intro n
    refine ⟨fun h1 => ?_, fun h1 h2 => ?_, fun h1 => ?_⟩
    · unfold recommendPlan
      rw [if_pos h1]
    · unfold recommendPlan
      rw [if_neg (by omega), if_pos h2]
    · unfold recommendPlan
      rw [if_neg (by omega), if_neg (by omega)]
  · intro p
    simp [planButtons]
  · intro p
    show ((([p] ++ (List.filter (fun q => q ≠ p) [("standard"), ("plus"), ("pro")])).map
      (planButton p)) ++ [skipButton]).getLast? = some skipButton
    rw [List.getLast?_concat]

/-- Claim C10 (witness): three included regions recommend the plus
plan. -/
theorem C10_witness :
    pricingNode none c10State = .ok { Patch.empty with
      current_node := some .pricing
      pricing_shown := some true
      buttons := some (planButtons (r"plus"))
      msgs := [.pricingIntro] } :=
  (C10_plan_recommendation none c10State rfl).1

/-! ## Claim C9 -/

/-- Updating values in place preserves the key list. -/
theorem upsert_map_fst (l : List (String × AbrRec)) (e : NameEntry) :
    (l.map (fun kv => if kv.1 = e.abn then (kv.1, mkAbrRec e) else kv)).map
        Prod.fst = l.map Prod.fst := by
  rw [List.map_map]
  apply List.map_congr_left
  intro kv _
  by_cases hk : kv.1 = e.abn <;> simp [hk]

/-- One `by_abn` insertion preserves the association-list invariant. -/
theorem goodAbn_upsert (l : List (String × AbrRec)) (e : NameEntry)
    (h : goodAbn l) : goodAbn (upsertByAbn l e) := by
  obtain ⟨hnd, hkey, hne⟩ := h
  unfold upsertByAbn
  split
  · exact ⟨hnd, hkey, hne⟩
  next hE =>
    split
    next hAny =>
      split
      next hBT =>
        refine ⟨?_, ?_, ?_⟩
        · rw [upsert_map_fst]
          exact hnd
        · intro kv hkv
          rcases List.mem_map.mp hkv with ⟨kv0, hkv0, heq⟩
          by_cases hk : kv0.1 = e.abn
          · rw [← heq]
            simp [hk, mkAbrRec]
          · rw [← heq]
            simp only [hk, if_false]
            exact hkey kv0 hkv0
        · intro kv hkv
          rcases List.mem_map.mp hkv with ⟨kv0, hkv0, heq⟩
          by_cases hk : kv0.1 = e.abn
          · rw [← heq]
            simpa [hk] using hE
          · rw [← heq]
            simp only [hk, if_false]
            exact hne kv0 hkv0
      next => exact ⟨hnd, hkey, hne⟩
    next hAny =>
      have hnotin : ∀ kv ∈ l, kv.1 ≠ e.abn := by
        intro kv hkv heq2
        apply hAny
        exact List.any_eq_true.mpr ⟨kv, hkv, by simp [heq2]⟩
      refine ⟨?_, ?_, ?_⟩
      · rw [List.map_append]
        simp only [List.map_cons, List.map_nil]
        rw [List.nodup_append]
        refine ⟨hnd, List.nodup_singleton _, ?_⟩
        intro a ha hb
        simp only [List.mem_singleton] at hb
        subst hb
        rcases List.mem_map.mp ha with ⟨kv0, hkv0, heq⟩
        exact hnotin kv0 hkv0 heq
      · intro kv hkv
        rcases List.mem_append.mp hkv with hl | hr
        · exact hkey kv hl
        · simp only [List.mem_singleton] at hr
          rw [hr]
          rfl
      · intro kv hkv
        rcases List.mem_append.mp hkv with hl | hr
        · exact hne kv hl
        · simp only [List.mem_singleton] at hr
          rw [hr]
          exact hE

/-- The invariant holds after folding any entry list. -/
theorem goodAbn_fold (names : List NameEntry) :
    ∀ l, goodAbn l → goodAbn (names.foldl upsertByAbn l) := by
  induction names with
  | nil => intro l h; exact h
  | cons e rest ih =>
    intro l h
    exact ih (upsertByAbn l e) (goodAbn_upsert l e h)

/-- Keys survive one insertion. -/
theorem upsert_key_mem (l : List (String × AbrRec)) (e : NameEntry)
    (k : String) (hk : k ∈ l.map Prod.fst) :
    k ∈ (upsertByAbn l e).map Prod.fst := by
  unfold upsertByAbn
  split
  · exact hk
  · split
    · split
      · rw [upsert_map_fst]
        exact hk
      · exact hk
    · rw [List.map_append]
      exact List.mem_append_left _ hk

/-- A key whose records are all Business/Trading stays that way under
one insertion. -/
theorem btAt_upsert (l : List (String × AbrRec)) (e : NameEntry)
    (k : String) (hk : k ∈ l.map Prod.fst) (hbt : btAt l k) :
    btAt (upsertByAbn l e) k := by
  unfold upsertByAbn
  split
  · exact hbt
  next hE =>
    split
    next hAny =>
      split
      next hBT =>
        intro kv hkv hkvk
        rcases List.mem_map.mp hkv with ⟨kv0, hkv0, heq⟩
        by_cases hc : kv0.1 = e.abn
        · rw [← heq]
          simpa [hc, mkAbrRec] using hBT
        · have hkvk0 : kv0.1 = k := by
            rw [← heq] at hkvk
            simpa [hc] using hkvk
          rw [← heq]
          simp only [hc, if_false]
          exact hbt kv0 hkv0 hkvk0
      next => exact hbt
    next hAny =>
      intro kv hkv hkvk
      rcases List.mem_append.mp hkv with hl | hr
      · exact hbt kv hl hkvk
      · exfalso
        simp only [List.mem_singleton] at hr
        subst hr
        have hek : e.abn = k := hkvk
        rcases List.mem_map.mp hk with ⟨kv0, hkv0, heq⟩
        apply hAny
        exact List.any_eq_true.mpr ⟨kv0, hkv0, by simp [heq, hek]⟩

/-- `btAt` and key membership survive folding a whole entry list. -/
theorem btAt_fold (names : List NameEntry) :
    ∀ l k, k ∈ l.map Prod.fst → btAt l k →
      k ∈ (names.foldl upsertByAbn l).map Prod.fst ∧
        btAt (names.foldl upsertByAbn l) k := by
  induction names with
  | nil => intro l k hk hbt; exact ⟨hk, hbt⟩
  | cons e rest ih =>
    intro l k hk hbt
    exact ih (upsertByAbn l e) k (upsert_key_mem l e k hk)
      (btAt_upsert l e k hk hbt)

/-- Inserting a Business/Trading entry makes its key present and
Business/Trading-typed. -/
theorem btAt_insert (l : List (String × AbrRec)) (e : NameEntry)
    (hE : ¬ e.abn = "") (hBT : isBT e.nameType = true) :
    e.abn ∈ (upsertByAbn l e).map Prod.fst ∧ btAt (upsertByAbn l e) e.abn := by
  unfold upsertByAbn
  rw [if_neg hE]
  by_cases hAny : (l.any fun kv => decide (kv.1 = e.abn)) = true
  case pos =>
    rw [if_pos hAny, if_pos hBT]
    constructor
    · rw [upsert_map_fst]
      rcases List.any_eq_true.mp hAny with ⟨kv0, hkv0, hkv0k⟩
      exact List.mem_map.mpr ⟨kv0, hkv0, by simpa using hkv0k⟩
    · intro kv hkv hkvk
      rcases List.mem_map.mp hkv with ⟨kv0, hkv0, heq⟩
      by_cases hc : kv0.1 = e.abn
      · rw [← heq]
        simpa [hc, mkAbrRec] using hBT
      · rw [← heq] at hkvk
        simp only [hc, if_false] at hkvk
  case neg =>
    rw [if_neg hAny]
    constructor
    · rw [List.map_append]
      apply List.mem_append_right
      simp
    · intro kv hkv hkvk
      rcases List.mem_append.mp hkv with hl | hr
      · exfalso
        apply hAny
        exact List.any_eq_true.mpr ⟨kv, hl, by simp [hkvk]⟩
      · simp only [List.mem_singleton] at hr
        subst hr
        simpa [mkAbrRec] using hBT

/-- Folding the entry list makes every key with a Business/Trading
entry present and Business/Trading-typed. -/
theorem btAt_final (names : List NameEntry) :
    ∀ l k, (∃ e ∈ names, e.abn = k ∧ ¬ k = "" ∧ isBT e.nameType = true) →
      k ∈ (names.foldl upsertByAbn l).map Prod.fst ∧
        btAt (names.foldl upsertByAbn l) k := by
  induction names with
  | nil =>
    intro l k h
    rcases h with ⟨e, he, _⟩
    exact absurd he (List.not_mem_nil e)
  | cons e rest ih =>
    intro l k h
    rcases h with ⟨e0, he0, habn, hk, hbt0⟩
    rcases List.mem_cons.mp he0 with he0e | he0r
    · subst he0e
      have hE0 : ¬ e0.abn = "" := by rw [habn]; exact hk
      have hins := btAt_insert l e0 hE0 hbt0
      rw [habn] at hins
      exact btAt_fold rest (upsertByAbn l e0) k hins.1 hins.2
    · exact ih (upsertByAbn l e) k ⟨e0, he0r, habn, hk, hbt0⟩

/-- Claim C9 (confirmed): the parsed ABR name-search result holds at
most five records and at most one record per ABN, and whenever an ABN
appears in the `Names` array both as an Entity Name entry and as a
Business/Trading Name entry, the record kept for it carries the
Business/Trading Name type. -/
theorem C9_name_dedup (names : List NameEntry) :
    (parseNameSearch names).length ≤ 5 ∧
    ((parseNameSearch names).map (fun r => r.abn)).Nodup ∧
    (∀ r ∈ parseNameSearch names,
      (∃ e ∈ names, e.abn = r.abn ∧ e.nameType = "Entity Name") →
      (∃ e ∈ names, e.abn = r.abn ∧ isBT e.nameType = true) →
      isBT r.entity_type = true) := by
  obtain ⟨hnd, hkey, hne⟩ :=
    goodAbn_fold names [] ⟨List.nodup_nil, by simp, by simp⟩
  refine ⟨?_, ?_, ?_⟩
  · unfold parseNameSearch
    exact List.length_take_le 5 _
  · unfold parseNameSearch
    rw [List.map_take, List.map_map]
    have heq : (names.foldl upsertByAbn []).map
        ((fun r => r.abn) ∘ Prod.snd) =
        (names.foldl upsertByAbn []).map Prod.fst :=
      List.map_congr_left (fun kv hkv => hkey kv hkv)
    rw [heq]
    exact List.Nodup.sublist (List.take_sublist 5 _) hnd
  · intro r hr hEnt hBT
    unfold parseNameSearch at hr
    have hr2 : r ∈ (names.foldl upsertByAbn []).map Prod.snd :=
      List.mem_of_mem_take hr
    rcases List.mem_map.mp hr2 with ⟨kv, hkv, hkveq⟩
    have hkeyr : kv.1 = r.abn := by
      rw [← hkveq]
      exact (hkey kv hkv).symm
    have hkne : ¬ r.abn = "" := by
      rw [← hkeyr]
      exact hne kv hkv
    rcases hBT with ⟨e, he, habn, hbt⟩
    have hfin := btAt_final names [] r.abn ⟨e, he, habn, hkne, hbt⟩
    have hres := hfin.2 kv hkv hkeyr
    rw [hkveq] at hres
    exact hres

/-- Claim C9 (witness): an ABN listed first as an Entity Name and then
as a Business Name is kept once, as the Business Name record. -/
theorem C9_witness :
    ∃ r ∈ parseNameSearch c9Names,
      r.abn = (r"51824753556") ∧ isBT r.entity_type = true := by
  have hm : ({ abn := "51824753556"
               entity_name := "DANS PLUMBING"
               entity_type := "Business Name"
               gst_registered := false
               regState := "NSW"
               postcode := "2155"
               status := "Active"
               score := 98 } : AbrRec) ∈ parseNameSearch c9Names := by
    decide
  refine ⟨_, hm, rfl, ?_⟩
  refine (C9_name_dedup c9Names).2.2 _ hm ?_ ?_
  · exact ⟨{ abn := "51824753556"
             name := "SMITH, DANIEL"
             nameType := "Entity Name"
             entState := "NSW"
             postcode := "2155"
             score := 100 }, by decide, rfl, rfl⟩
  · exact ⟨{ abn := "51824753556"
             name := "DANS PLUMBING"
             nameType := "Business Name"
             entState := "NSW"
             postcode := "2155"
             score := 98 }, by decide, rfl, rfl⟩

end TradeOnboarding
